import Mathlib

/-!
Verification of the token issuance and capability-authorization core of the
`api-security-fintech` repository, against its natural-language specification.

The Python sources embedded here (shallowly) are:
* `services/auth_service/application/security.py` — `JWTService`, `RefreshSession`,
  `JWTSettings` (token minting, refresh rotation, revocation);
* `services/auth_service/application/services.py` — `AuthService.generate_token`,
  `AuthService.revoke_token`;
* `services/transaction_service/presentation/dependencies.py` — `_decode_token`,
  `require_scopes`, `require_roles`, `Principal`.

Modelling conventions:
* Python `datetime` values become `Int` seconds; `timedelta` TTLs become `Int` seconds;
  the current wall-clock time is passed explicitly where the source calls
  `datetime.now(timezone.utc)`.
* `secrets.token_urlsafe(48)` (a fresh random refresh secret) is passed explicitly as a
  `freshRefreshToken : String` argument; freshness assumptions appear as hypotheses.
* `hashlib.sha256(...).hexdigest()` is an arbitrary function `hash : String → String`
  carried as a field of the service state (collision-freeness, where needed, is a
  hypothesis on the concrete tokens involved).
* A Python `dict` becomes an association list with insert-overwrite semantics.
* RS256 signing is modelled abstractly: `jwt.encode(payload, private_key)` produces a
  `SignedToken` recording the payload and the signing key; verification succeeds exactly
  when the presented verification key is the public counterpart (under an arbitrary
  pairing `pub_of : String → String`) of the key that signed.
* Python `ValueError` exceptions become `Except AuthError` results; the constructor
  names follow the specification's error taxonomy (`InvalidRefreshToken` is the
  `ValueError("Invalid refresh token")` of `_pop_refresh_token`, and so on).
-/

/-- Error taxonomy of the auth core (spec §7). The first five constructors each
correspond to one `ValueError` message in the Python source: `UnknownClient` ↔
"Unknown client", `ScopeNotGranted` ↔ "Requested scope exceeds ... grant(s)",
`UnsupportedGrant` ↔ "Unsupported grant type for client", `InvalidRefreshToken` ↔
"Invalid refresh token", `RefreshTokenExpired` ↔ "Refresh token expired".
`AttributeError` models Python's `AttributeError`, raised when code reads an attribute
that the pydantic model does not define (a constructor kwarg outside the declared
fields is silently dropped under pydantic's default extra-ignore behavior, and reading
it back fails). -/
inductive AuthError where
  | UnknownClient
  | ScopeNotGranted
  | UnsupportedGrant
  | InvalidRefreshToken
  | RefreshTokenExpired
  | AttributeError
deriving DecidableEq, Repr

/-- Guard errors raised by the FastAPI authorization dependencies. -/
inductive GuardError where
  | Unauthorized
  | InsufficientScope
  | InsufficientRole
deriving DecidableEq, Repr

/-- Decidable equality of fallible results, so that witnesses can be checked by
evaluation. -/
instance {ε α : Type} [DecidableEq ε] [DecidableEq α] : DecidableEq (Except ε α) :=
  fun x y =>
  match x, y with
  | .error e, .error e' =>
      if h : e = e' then isTrue (by rw [h]) else isFalse (by simp [h])
  | .ok a, .ok a' =>
      if h : a = a' then isTrue (by rw [h]) else isFalse (by simp [h])
  | .error _, .ok _ => isFalse (by simp)
  | .ok _, .error _ => isFalse (by simp)

/-- Association-list model of a Python `dict`: assignment `d[k] = v` overwrites any
existing binding of `k`. -/
def dictInsert {β : Type} (d : List (String × β)) (k : String) (v : β) :
    List (String × β) :=
  (k, v) :: d.filter (fun p => p.1 != k)

/-- Lookup `d.get(k)` in the dictionary model. -/
def dictGet {β : Type} (d : List (String × β)) (k : String) : Option β :=
  (d.find? (fun p => p.1 == k)).map (fun p => p.2)

/-- Removal effect of Python `d.pop(k, None)`: every binding of `k` is gone. -/
def dictRemove {β : Type} (d : List (String × β)) (k : String) :
    List (String × β) :=
  d.filter (fun p => p.1 != k)

/-- Model of Python's truthiness test on an optional string (`if s:`): `None` and the
empty string are falsy. -/
def strTruthy : Option String → Bool
  | some s => s != ""
  | none => false

/-- Model of Python's `a or b` on optional strings. -/
def pyOrStr (a b : Option String) : Option String :=
  if strTruthy a then a else b

/-- Model of Python's `s or None` on a string: the empty string becomes `None`. -/
def strOrNone (s : String) : Option String :=
  if s == "" then none else some s

/-- Model of Python's `str.split()` (split on whitespace runs, dropping empty pieces),
composed with `filter(None, ...)` where the source applies it — both collapse to the
same function, since `split()` never yields empty pieces. -/
def pySplit (s : String) : List String :=
  ((s.toList.splitOnP (fun c => c.isWhitespace)).filter (fun w => w != [])).map
    (fun w => String.mk w)

/-- Model of Python's `" ".join(words)`. -/
def joinWords : List String → String
  | [] => ""
  | [w] => w
  | w :: ws => w ++ " " ++ joinWords ws

/-- Canonical ascending enumeration of a scope/role set, modelling Python's
`sorted(string_set)`. -/
def sortedStrings (s : Finset String) : List String :=
  s.sort (fun a b => a ≤ b)

/-- Model of `" ".join(sorted(string_set))`, the canonical scope-claim encoding. -/
def joinSorted (s : Finset String) : String :=
  joinWords (sortedStrings s)

/-- Configuration of the token issuer (`JWTSettings` in `security.py`); TTLs are in
seconds. -/
structure JWTSettings where
  issuer : String
  audience : Option String
  private_key : String
  public_key : String
  key_id : String
  access_token_ttl : Int
  refresh_token_ttl : Int
deriving DecidableEq, Repr

/-- Metadata about an active refresh token (`RefreshSession` in `security.py`). -/
structure RefreshSession where
  subject : String
  client_id : String
  scopes : Finset String
  roles : Finset String
  expires_at : Int
deriving DecidableEq

/-- Model of `RefreshSession.is_expired`: `datetime.now(timezone.utc) >= self.expires_at`. -/
def RefreshSession.is_expired (s : RefreshSession) (now : Int) : Bool :=
  decide (s.expires_at ≤ now)

/-- Claim set of a signed access token (the `payload` dict built by `issue_tokens` and
`rotate_refresh_token`). -/
structure Payload where
  iss : String
  sub : String
  iat : Int
  exp : Int
  scope : String
  client_id : String
  roles : List String
  aud : Option String
deriving DecidableEq, Repr

/-- Abstract model of `jwt.encode(payload, private_key, algorithm="RS256", headers)`:
the token records the claims, the signing (private) key and the `kid` header. -/
structure SignedToken where
  payload : Payload
  signingKey : String
  kid : String
deriving DecidableEq, Repr

/-- Return value of `issue_tokens` / `rotate_refresh_token` (the token-bundle dict). -/
structure TokenBundle where
  access_token : SignedToken
  refresh_token : String
  expires_in : Int
  issued_at : Int
  scope : Option String
deriving DecidableEq, Repr

/-- State of the `JWTService` object: its settings and the in-memory refresh-token
store, keyed by `hash(token_secret)`. The `hash` field models
`hashlib.sha256(token.encode()).hexdigest()`. -/
structure JWTService where
  settings : JWTSettings
  refresh_tokens : List (String × RefreshSession)
  hash : String → String

/-- Model of `JWTService._pop_refresh_token`: atomically remove and return the session
stored under the token's hash; absence is the `InvalidRefreshToken` error (the store is
untouched in that case, matching `dict.pop(hashed, None)` on an absent key). -/
def JWTService.pop_refresh_token (svc : JWTService) (token : String) :
    Except AuthError (RefreshSession × JWTService) :=
  let hashed := svc.hash token
  match dictGet svc.refresh_tokens hashed with
  | none => .error .InvalidRefreshToken
  | some session =>
      .ok (session, { svc with refresh_tokens := dictRemove svc.refresh_tokens hashed })

/-- Model of `JWTService.issue_tokens`. `now` stands for `datetime.now(timezone.utc)`
and `freshRefreshToken` for `token_urlsafe(48)`. Returns the token bundle and the
post-state (the new refresh session registered in the store). -/
def JWTService.issue_tokens (svc : JWTService) (subject client_id : String)
    (scopes roles : List String) (audience : Option String)
    (now : Int) (freshRefreshToken : String) : TokenBundle × JWTService :=
  let issued_at := now
  let expires_at := now + svc.settings.access_token_ttl
  let scope_set : Finset String := scopes.toFinset
  let roles_set : Finset String := roles.toFinset
  let aud_claim := pyOrStr audience svc.settings.audience
  let payload : Payload :=
    { iss := svc.settings.issuer
      sub := subject
      iat := issued_at
      exp := expires_at
      scope := joinSorted scope_set
      client_id := client_id
      roles := sortedStrings roles_set
      aud := if strTruthy aud_claim then aud_claim else none }
  let access_token : SignedToken :=
    { payload := payload
      signingKey := svc.settings.private_key
      kid := svc.settings.key_id }
  let refresh_expires := issued_at + svc.settings.refresh_token_ttl
  let session : RefreshSession :=
    { subject := subject
      client_id := client_id
      scopes := scope_set
      roles := roles_set
      expires_at := refresh_expires }
  let svc' :=
    { svc with
      refresh_tokens :=
        dictInsert svc.refresh_tokens (svc.hash freshRefreshToken) session }
  ({ access_token := access_token
     refresh_token := freshRefreshToken
     expires_in := svc.settings.access_token_ttl
     issued_at := issued_at
     scope := strOrNone (joinSorted scope_set) }, svc')

/-- Effective requested scope set inside `rotate_refresh_token`
(`set(scope.split()) if scope else session.scopes`, security.py line 176): the explicit
request split on whitespace when truthy, else the session's existing scopes. -/
def rotationEffectiveScopes (scope : Option String) (session : RefreshSession) :
    Finset String :=
  match scope with
  | some s => if s != "" then (pySplit s).toFinset else session.scopes
  | none => session.scopes

/-- Model of `JWTService.rotate_refresh_token`. Mirrors the source line by line: pop the
session (consuming it even on later failure), reject expired sessions, reject scope
widening, then mint a new access token and register a brand-new refresh session — whose
`scopes` field is `session.scopes` exactly as in the source (line 213 of
`security.py`). -/
def JWTService.rotate_refresh_token (svc : JWTService) (refresh_token : String)
    (scope : Option String) (expires_in : Option Int)
    (now : Int) (freshRefreshToken : String) :
    Except AuthError TokenBundle × JWTService :=
  match svc.pop_refresh_token refresh_token with
  | .error e => (.error e, svc)
  | .ok (session, svc1) =>
    if session.is_expired now then (.error .RefreshTokenExpired, svc1)
    else
      let requested_scope : Finset String := rotationEffectiveScopes scope session
      if ¬ requested_scope ⊆ session.scopes then (.error .ScopeNotGranted, svc1)
      else
        let ttl : Int :=
          match expires_in with
          | some e => e
          | none => svc.settings.access_token_ttl
        let issued_at := now
        let expires_at := now + ttl
        let payload : Payload :=
          { iss := svc.settings.issuer
            sub := session.subject
            iat := issued_at
            exp := expires_at
            scope := joinSorted requested_scope
            client_id := session.client_id
            roles := sortedStrings session.roles
            aud := if strTruthy svc.settings.audience then svc.settings.audience
                   else none }
        let access_token : SignedToken :=
          { payload := payload
            signingKey := svc.settings.private_key
            kid := svc.settings.key_id }
        let refresh_expires := issued_at + svc.settings.refresh_token_ttl
        let next_session : RefreshSession :=
          { subject := session.subject
            client_id := session.client_id
            scopes := session.scopes
            roles := session.roles
            expires_at := refresh_expires }
        let svc2 :=
          { svc1 with
            refresh_tokens :=
              dictInsert svc1.refresh_tokens (svc.hash freshRefreshToken)
                next_session }
        (.ok { access_token := access_token
               refresh_token := freshRefreshToken
               expires_in := ttl
               issued_at := issued_at
               scope := strOrNone (joinSorted requested_scope) }, svc2)

/-- Model of `JWTService.revoke_refresh_token`: best-effort removal, never an error. -/
def JWTService.revoke_refresh_token (svc : JWTService) (token : String) : JWTService :=
  { svc with refresh_tokens := dictRemove svc.refresh_tokens (svc.hash token) }

/-- Verified claims extracted from an access token (`Principal` in
`transaction_service/presentation/dependencies.py`). -/
structure Principal where
  subject : String
  scopes : Finset String
  roles : Finset String
  client_id : Option String
deriving DecidableEq

/-- Abstract RS256 verification: `pub_of` maps each private key to its public
counterpart; a signature checks out exactly when the presented verification key is the
public counterpart of the key that signed. -/
def sigOk (pub_of : String → String) (tok : SignedToken) (key : String) : Bool :=
  pub_of tok.signingKey == key

/-- Audience check performed by `jwt.decode`: skipped when no audience is configured
(`verify_aud` is false), otherwise the `aud` claim must equal the expected audience. -/
def audOk (expected : Option String) (aud : Option String) : Bool :=
  match expected with
  | none => true
  | some a => aud == some a

/-- Model of `_decode_token` in `transaction_service/presentation/dependencies.py`:
`jwt.decode` checks the signature, the `exp` claim against the decode-time clock `now`,
and the audience only when one is configured; on success the payload is projected to a
`Principal` — `scope` split on whitespace into a set (dropping empties), `roles` into a
set, `sub` and `client_id` copied. Any check failure is the 401 `Unauthorized` path. -/
def decode_token (pub_of : String → String) (key : String)
    (expectedAud : Option String) (now : Int) (tok : SignedToken) :
    Except GuardError Principal :=
  if sigOk pub_of tok key ∧ now < tok.payload.exp ∧
      audOk expectedAud tok.payload.aud = true then
    .ok { subject := tok.payload.sub
          scopes := (pySplit tok.payload.scope).toFinset
          roles := tok.payload.roles.toFinset
          client_id := some tok.payload.client_id }
  else .error .Unauthorized

/-- Model of the `require_scopes` dependency: a pure all-of predicate over an
already-verified `Principal` (it never re-examines the token); the request passes iff
the required scopes are a subset of the principal's scopes. -/
def require_scopes (required : List String) (principal : Principal) :
    Except GuardError Principal :=
  if required.toFinset ⊆ principal.scopes then .ok principal
  else .error .InsufficientScope

/-- Model of the `require_roles` dependency: a pure any-of predicate over an
already-verified `Principal`; it fails only when the required list is non-empty and
disjoint from the principal's roles. -/
def require_roles (required : List String) (principal : Principal) :
    Except GuardError Principal :=
  if required ≠ [] ∧ principal.roles ∩ required.toFinset = ∅ then
    .error .InsufficientRole
  else .ok principal

/-- Registered OAuth client: exactly the fields `OAuthClient` declares in
`auth_service/application/schemas.py`. The client registry in
`auth_service/presentation/dependencies.py` additionally passes a `roles=[...]` kwarg,
but pydantic's default extra-ignore behavior drops it, so the constructed model has no
`roles` attribute and `services.py` reading `client.roles` raises `AttributeError`. -/
structure OAuthClient where
  client_id : String
  client_name : String
  description : Option String
  scopes : List String
  allowed_grant_types : List String
deriving DecidableEq, Repr

/-- Token request metadata: exactly the fields `TokenRequestMeta` declares in
`schemas.py`. The API layer (`api.py`) additionally passes a `subject=...` kwarg, but
pydantic drops it, so the constructed model has no `subject` attribute and
`services.py` reading `meta.subject` raises `AttributeError`. -/
structure TokenRequestMeta where
  client_id : Option String
  grant_type : String
  requested_scope : Option String
  audience : Option String
deriving DecidableEq, Repr

/-- Wire-level token response (`TokenResponse` in `schemas.py`); `token_type` defaults
to "bearer". -/
structure TokenResponse where
  access_token : SignedToken
  token_type : String := "bearer"
  expires_in : Int
  refresh_token : Option String
  scope : Option String
  issued_at : Int
deriving DecidableEq, Repr

/-- Acknowledgment dict returned by the revocation endpoint. -/
structure RevocationAck where
  status : String
  token : String
deriving DecidableEq, Repr

/-- State of an `AuthService` object: the client dictionary (built by the constructor
as a dict comprehension keyed by `client_id`) and the underlying `JWTService`. -/
structure AuthService where
  clients : List (String × OAuthClient)
  security : JWTService

/-- Model of the `AuthService.__init__` dict comprehension
`\x7bclient.client_id: client for client in clients\x7d`: later entries overwrite
earlier ones. -/
def clientDict (clients : List OAuthClient) : List (String × OAuthClient) :=
  clients.foldl (fun d c => dictInsert d c.client_id c) []

/-- Model of `AuthService._get_client`: a falsy (`None` or empty) or unregistered
`client_id` is the `UnknownClient` error. -/
def getClient (clients : List (String × OAuthClient)) (client_id : Option String) :
    Except AuthError OAuthClient :=
  if ¬ strTruthy client_id then .error .UnknownClient
  else
    match client_id with
    | none => .error .UnknownClient
    | some cid =>
        match dictGet clients cid with
        | none => .error .UnknownClient
        | some c => .ok c

/-- Effective requested scope set in `generate_token`: the explicit request split on
whitespace when truthy, else the client's full allowed scope set. -/
def effectiveScopes (meta : TokenRequestMeta) (client : OAuthClient) : Finset String :=
  match meta.requested_scope with
  | some s => if s != "" then (pySplit s).toFinset else client.scopes.toFinset
  | none => client.scopes.toFinset

/-- Model of `AuthService.generate_token`: client lookup, scope-subset check, grant
check — and then the line `subject = meta.subject or client.client_id`
(services.py line 38). `TokenRequestMeta` as declared in `schemas.py` has no `subject`
field (pydantic drops the API layer's extra kwarg), so this attribute read raises
`AttributeError` before `issue_tokens` is ever reached (were it reached, `client.roles`
on line 43 would raise the same way). The state is unchanged on every path, since no
path ever mutates the refresh-session store. -/
def AuthService.generate_token (auth : AuthService) (meta : TokenRequestMeta)
    (_now : Int) (_freshRefreshToken : String) :
    Except AuthError TokenResponse × AuthService :=
  match getClient auth.clients meta.client_id with
  | .error e => (.error e, auth)
  | .ok client =>
    let requested_scopes := effectiveScopes meta client
    if ¬ requested_scopes ⊆ client.scopes.toFinset then
      (.error .ScopeNotGranted, auth)
    else if ¬ client.allowed_grant_types.contains meta.grant_type then
      (.error .UnsupportedGrant, auth)
    else
      (.error .AttributeError, auth)

/-- Model of `AuthService.revoke_token` combined with the `/auth/revoke` endpoint: the
refresh token is removed best-effort and the acknowledgment dict
`status: revoked, token: token` is returned unconditionally. -/
def AuthService.revoke_token (auth : AuthService) (token : String) :
    RevocationAck × AuthService :=
  ({ status := "revoked", token := token },
   { auth with security := auth.security.revoke_refresh_token token })

/-- Well-formedness of a single scope/role string for lossless transport inside the
space-joined `scope` claim: non-empty and free of whitespace. -/
def goodScope (w : String) : Prop :=
  w ≠ "" ∧ ∀ c ∈ w.toList, c.isWhitespace = false

instance (w : String) : Decidable (goodScope w) := by
  unfold goodScope
  infer_instance

/-- Concrete settings instance used by witnesses, mirroring the defaults of
`JWTSettings` (15-minute access TTL, 7-day refresh TTL, no audience). -/
def sampleSettings : JWTSettings :=
  { issuer := "https://auth-service.local"
    audience := none
    private_key := "PRIV"
    public_key := "PUB"
    key_id := "auth-service-key"
    access_token_ttl := 900
    refresh_token_ttl := 604800 }

/-- Concrete live refresh session used by witnesses. -/
def sampleSession : RefreshSession :=
  { subject := "alice"
    client_id := "web-portal"
    scopes := {"a", "b"}
    roles := {"customer"}
    expires_at := 1000 }

/-- Concrete service state used by witnesses: one stored refresh session for the
secret "tok1"; the hash function is the identity (an injective stand-in for
sha256-hexdigest). -/
def sampleSvc : JWTService :=
  { settings := sampleSettings
    refresh_tokens := [("tok1", sampleSession)]
    hash := fun s => s }

/-- Concrete registered client used by witnesses (the "payments-gateway" client of the
registry in `auth_service/presentation/dependencies.py`, as pydantic actually
constructs it: the registry's extra `roles` kwarg is dropped). -/
def sampleClient : OAuthClient :=
  { client_id := "payments-gateway"
    client_name := "Payments Gateway"
    description := some "Handles card transactions for merchant partners"
    scopes := ["transactions:write", "transactions:read"]
    allowed_grant_types := ["client_credentials"] }

/-- Concrete auth service used by witnesses. -/
def sampleAuth : AuthService :=
  { clients := clientDict [sampleClient]
    security := sampleSvc }

/-- Concrete principal used by witnesses. -/
def samplePrincipal : Principal :=
  { subject := "alice"
    scopes := {"a", "b"}
    roles := {"customer"}
    client_id := some "web-portal" }

/-! ### Dictionary-model lemmas -/

theorem dictGet_dictInsert_self {β : Type} (d : List (String × β)) (k : String)
    (v : β) : dictGet (dictInsert d k v) k = some v := by
  simp [dictGet, dictInsert, List.find?]

theorem find?_filter_ne {β : Type} (d : List (String × β)) (k k' : String)
    (h : k' ≠ k) :
    List.find? (fun p => p.1 == k') (List.filter (fun p => p.1 != k) d) =
      List.find? (fun p => p.1 == k') d := by
  rw [List.find?_filter]
  have hfun : (fun (a : String × β) => decide ((a.1 != k) = true ∧ (a.1 == k') = true)) =
      (fun a => a.1 == k') := by
    funext a
    by_cases ha : a.1 = k'
    · simp [ha, h]
    · simp [ha]
  rw [hfun]

theorem dictGet_dictInsert_ne {β : Type} (d : List (String × β)) (k k' : String)
    (v : β) (h : k' ≠ k) : dictGet (dictInsert d k v) k' = dictGet d k' := by
  simp only [dictGet, dictInsert]
  rw [List.find?_cons_of_neg, find?_filter_ne d k k' h]
  simp [Ne.symm h]

theorem dictGet_dictRemove_self {β : Type} (d : List (String × β)) (k : String) :
    dictGet (dictRemove d k) k = none := by
  have hnone : List.find? (fun p : String × β => p.1 == k)
      (List.filter (fun p => p.1 != k) d) = none := by
    rw [List.find?_eq_none]
    intro x hx
    rcases List.mem_filter.mp hx with ⟨_, hne⟩
    simpa using bne_iff_ne.mp hne
  simp [dictGet, dictRemove, hnone]

theorem dictGet_dictRemove_ne {β : Type} (d : List (String × β)) (k k' : String)
    (h : k' ≠ k) : dictGet (dictRemove d k) k' = dictGet d k' := by
  simp only [dictGet, dictRemove]
  rw [find?_filter_ne d k k' h]

theorem dictRemove_dictRemove {β : Type} (d : List (String × β)) (k : String) :
    dictRemove (dictRemove d k) k = dictRemove d k := by
  simp [dictRemove, List.filter_filter]

/-! ### Split/join round-trip lemmas -/

theorem joinWords_cons_cons (w w' : String) (ws : List String) :
    joinWords (w :: w' :: ws) = w ++ " " ++ joinWords (w' :: ws) := rfl

theorem toList_joinWords_cons_cons (w w' : String) (ws : List String) :
    (joinWords (w :: w' :: ws)).toList =
      w.toList ++ ' ' :: (joinWords (w' :: ws)).toList := by
  show (w.toList ++ [' ']) ++ (joinWords (w' :: ws)).toList = _
  rw [List.append_assoc]
  rfl

theorem toList_ne_nil_of_ne_empty (w : String) (h : w ≠ "") : w.toList ≠ [] :=
  fun hn => h (String.ext hn)

theorem toList_bne_nil_of_ne_empty (w : String) (h : w ≠ "") :
    (w.toList != []) = true := by
  simpa using toList_ne_nil_of_ne_empty w h

theorem pySplit_single (w : String) (h : goodScope w) : pySplit w = [w] := by
  unfold pySplit
  rw [List.splitOnP_eq_single]
  · simp only [List.filter_cons, List.filter_nil, toList_bne_nil_of_ne_empty w h.1,
      if_true, List.map_cons, List.map_nil]
    rw [show String.mk w.toList = w from rfl]
  · intro x hx
    simp [h.2 x hx]

theorem pySplit_joinWords (ls : List String) (h : ∀ w ∈ ls, goodScope w) :
    pySplit (joinWords ls) = ls := by
  induction ls with
  | nil => rfl
  | cons w ws ih =>
    cases ws with
    | nil => exact pySplit_single w (h w (List.mem_cons_self w []))
    | cons w' ws' =>
      have hw := h w (List.mem_cons_self _ _)
      have hrest : ∀ u ∈ w' :: ws', goodScope u :=
        fun u hu => h u (List.mem_cons_of_mem _ hu)
      have ihr := ih hrest
      unfold pySplit at ihr ⊢
      rw [toList_joinWords_cons_cons]
      rw [List.splitOnP_first _ w.toList (fun x hx => by simp [hw.2 x hx]) ' '
        (by decide)]
      simp only [List.filter_cons, toList_bne_nil_of_ne_empty w hw.1, if_true,
        List.map_cons]
      rw [show String.mk w.toList = w from rfl, ihr]

theorem toFinset_sortedStrings (s : Finset String) :
    (sortedStrings s).toFinset = s :=
  Finset.sort_toFinset _ s

theorem pySplit_joinSorted (s : Finset String) (h : ∀ w ∈ s, goodScope w) :
    pySplit (joinSorted s) = sortedStrings s := by
  unfold joinSorted
  exact pySplit_joinWords _ (fun w hw => h w ((Finset.mem_sort _).mp hw))

theorem toFinset_pySplit_joinSorted (s : Finset String) (h : ∀ w ∈ s, goodScope w) :
    (pySplit (joinSorted s)).toFinset = s := by
  rw [pySplit_joinSorted s h]
  exact toFinset_sortedStrings s

/-- C7: `require_scopes` is all-of: for every verified principal and every list of
required scope strings, the decision passes (returns the principal) iff the set of
required scopes is a subset of the principal's scopes, regardless of order or
duplicates in the required list; otherwise it fails with `InsufficientScope`. The
function is a pure predicate on an already-verified `Principal` and never re-examines
the token. -/
theorem require_scopes_all_of (required : List String) (p : Principal) :
    (require_scopes required p = .ok p ↔ required.toFinset ⊆ p.scopes) ∧
    (¬ required.toFinset ⊆ p.scopes →
      require_scopes required p = .error .InsufficientScope) ∧
    (∀ required' : List String, required.toFinset = required'.toFinset →
      require_scopes required p = require_scopes required' p) := by
  refine ⟨?_, ?_, ?_⟩
  · unfold require_scopes
    by_cases h : required.toFinset ⊆ p.scopes <;> simp [h]
  · intro h
    simp [require_scopes, h]
  · intro required' he
    simp [require_scopes, he]

/-- Witness for C7 at concrete inputs: scopes "a","b" of the sample principal pass a
requirement of "a" (in any order and with duplicates) and fail a requirement of "c". -/
theorem require_scopes_all_of_witness :
    require_scopes ["a"] samplePrincipal = .ok samplePrincipal ∧
    require_scopes ["c"] samplePrincipal = .error .InsufficientScope ∧
    require_scopes ["b", "a"] samplePrincipal =
      require_scopes ["a", "b", "a"] samplePrincipal :=
  ⟨(require_scopes_all_of ["a"] samplePrincipal).1.mpr (by decide),
   (require_scopes_all_of ["c"] samplePrincipal).2.1 (by decide),
   (require_scopes_all_of ["b", "a"] samplePrincipal).2.2 ["a", "b", "a"] (by decide)⟩

/-- C8: `require_roles` is any-of: the decision passes iff the required list is empty
or the principal's roles intersect the required set; otherwise it fails with the
insufficient-role error. -/
theorem require_roles_any_of (required : List String) (p : Principal) :
    (require_roles required p = .ok p ↔
      (required = [] ∨ (p.roles ∩ required.toFinset).Nonempty)) ∧
    (¬ (required = [] ∨ (p.roles ∩ required.toFinset).Nonempty) →
      require_roles required p = .error .InsufficientRole) := by
  constructor
  · unfold require_roles
    by_cases h : required ≠ [] ∧ p.roles ∩ required.toFinset = ∅
    · rw [if_pos h]
      rcases h with ⟨hne, hempty⟩
      constructor
      · intro hco
        exact absurd hco (by simp)
      · intro hor
        rcases hor with h1 | h2
        · exact absurd h1 hne
        · rw [hempty] at h2
          exact absurd h2 (by simp)
    · rw [if_neg h]
      simp only [not_and_or, not_not] at h
      constructor
      · intro _
        rcases h with h | h
        · exact Or.inl h
        · exact Or.inr (Finset.nonempty_iff_ne_empty.mpr h)
      · intro _
        rfl
  · intro h
    rw [not_or] at h
    have h2 : p.roles ∩ required.toFinset = ∅ := by
      rcases h with ⟨_, hne⟩
      exact Finset.not_nonempty_iff_eq_empty.mp hne
    simp [require_roles, h.1, h2]

/-- Witness for C8 at concrete inputs: the sample principal (role "customer") passes an
empty requirement and a requirement intersecting its roles, and fails a disjoint one. -/
theorem require_roles_any_of_witness :
    require_roles [] samplePrincipal = .ok samplePrincipal ∧
    require_roles ["customer", "admin"] samplePrincipal = .ok samplePrincipal ∧
    require_roles ["admin"] samplePrincipal = .error .InsufficientRole :=
  ⟨(require_roles_any_of [] samplePrincipal).1.mpr (Or.inl rfl),
   (require_roles_any_of ["customer", "admin"] samplePrincipal).1.mpr
     (Or.inr (by decide)),
   (require_roles_any_of ["admin"] samplePrincipal).2 (by decide)⟩

/-- C9: revocation is idempotent and leak-free: the endpoint acknowledgment is the
same fixed success dict for every state and token (no information about whether the
token existed); the token's own session is removed; no other store entry is touched;
revoking twice yields the same state as revoking once; and the issuer settings (hence
the key material against which already-issued access tokens verify) are unchanged, so
revocation cannot affect any already-issued access token's validity — `decode_token`
reads no service state at all. -/
theorem revoke_idempotent_leak_free (auth : AuthService) (token : String) :
    (auth.revoke_token token).1 = { status := "revoked", token := token } ∧
    dictGet (auth.revoke_token token).2.security.refresh_tokens
      (auth.security.hash token) = none ∧
    (∀ k, k ≠ auth.security.hash token →
      dictGet (auth.revoke_token token).2.security.refresh_tokens k =
        dictGet auth.security.refresh_tokens k) ∧
    ((auth.revoke_token token).2.revoke_token token).2 = (auth.revoke_token token).2 ∧
    (auth.revoke_token token).2.security.settings = auth.security.settings := by
  refine ⟨rfl, ?_, ?_, ?_, rfl⟩
  · exact dictGet_dictRemove_self _ _
  · intro k hk
    exact dictGet_dictRemove_ne _ _ _ hk
  · simp only [AuthService.revoke_token, JWTService.revoke_refresh_token]
    rw [dictRemove_dictRemove]

/-- Witness for C9 at concrete inputs: revoking "tok1" from the sample state leaves the
unrelated key "zzz" exactly as it was. -/
theorem revoke_idempotent_leak_free_witness :
    dictGet (sampleAuth.revoke_token "tok1").2.security.refresh_tokens "zzz" =
      dictGet sampleAuth.security.refresh_tokens "zzz" :=
  (revoke_idempotent_leak_free sampleAuth "tok1").2.2.1 "zzz" (by decide)

/-- C5: issue failure conditions of `generate_token`: an absent (or falsy) `client_id`
fails `UnknownClient`; with a known client, an effective requested scope set that is
not a subset of the client's allowed scopes fails `ScopeNotGranted`; with a known
client and granted scopes, a grant type outside the client's allowed grant types fails
`UnsupportedGrant`; every failure returns the state unchanged (the refresh-session
store is untouched, since `issue_tokens` runs only after all checks pass). -/
theorem generate_token_failure_conditions (auth : AuthService)
    (meta : TokenRequestMeta) (now : Int) (ft : String) :
    (getClient auth.clients meta.client_id = .error .UnknownClient →
      auth.generate_token meta now ft = (.error .UnknownClient, auth)) ∧
    (∀ client, getClient auth.clients meta.client_id = .ok client →
      ¬ effectiveScopes meta client ⊆ client.scopes.toFinset →
      auth.generate_token meta now ft = (.error .ScopeNotGranted, auth)) ∧
    (∀ client, getClient auth.clients meta.client_id = .ok client →
      effectiveScopes meta client ⊆ client.scopes.toFinset →
      client.allowed_grant_types.contains meta.grant_type = false →
      auth.generate_token meta now ft = (.error .UnsupportedGrant, auth)) := by
  refine ⟨?_, ?_, ?_⟩
  · intro h
    simp [AuthService.generate_token, h]
  · intro client hc hs
    simp [AuthService.generate_token, hc, hs]
  · intro client hc hs hg
    have hg' : meta.grant_type ∉ client.allowed_grant_types := by
      simpa using hg
    simp [AuthService.generate_token, hc, hs, hg']

/-- Witness for C5 at concrete inputs against the sample registry (client
"payments-gateway", scopes transactions:write/read, grant client_credentials): an
unknown client id, a scope outside the grant, and a disallowed grant type each produce
their error with the state unchanged. -/
theorem generate_token_failure_conditions_witness :
    sampleAuth.generate_token
      { client_id := some "nope", grant_type := "client_credentials",
        requested_scope := none, audience := none } 0 "t" =
      (.error .UnknownClient, sampleAuth) ∧
    sampleAuth.generate_token
      { client_id := some "payments-gateway", grant_type := "client_credentials",
        requested_scope := some "transactions:admin", audience := none } 0 "t" =
      (.error .ScopeNotGranted, sampleAuth) ∧
    sampleAuth.generate_token
      { client_id := some "payments-gateway", grant_type := "password",
        requested_scope := none, audience := none } 0 "t" =
      (.error .UnsupportedGrant, sampleAuth) :=
  ⟨(generate_token_failure_conditions sampleAuth _ 0 "t").1 (by decide),
   (generate_token_failure_conditions sampleAuth _ 0 "t").2.1 sampleClient
     (by decide) (by decide),
   (generate_token_failure_conditions sampleAuth _ 0 "t").2.2 sampleClient
     (by decide) (by decide) (by decide)⟩

/-- C6: the claimed canonical-scope success path is unreachable in the frozen source:
for every request that passes all three checks (client known, scope subset granted,
grant type allowed), `generate_token` raises `AttributeError` at the very next line
(`meta.subject`, services.py line 38 — `TokenRequestMeta` in `schemas.py` declares no
`subject` field and pydantic drops the API layer's extra kwarg; `client.roles` on line
43 would fail the same way), so no token is ever issued and the refresh-session store
is untouched. The claim describes the evident intent; the schema is missing the
fields its callers and readers assume. -/
theorem issue_canonical_scope_attribute_error (auth : AuthService)
    (meta : TokenRequestMeta) (now : Int) (ft : String) (client : OAuthClient)
    (hc : getClient auth.clients meta.client_id = .ok client)
    (hs : effectiveScopes meta client ⊆ client.scopes.toFinset)
    (hg : client.allowed_grant_types.contains meta.grant_type = true) :
    auth.generate_token meta now ft = (.error .AttributeError, auth) := by
  have hg' : meta.grant_type ∈ client.allowed_grant_types := by
    simpa using hg
  simp [AuthService.generate_token, hc, hs, hg']

/-- Witness for C6's failing input: the fully valid request — known client
"payments-gateway", granted scope "transactions:write", allowed grant
client_credentials — crashes with `AttributeError` instead of issuing a token. -/
theorem issue_canonical_scope_attribute_error_witness :
    sampleAuth.generate_token
      { client_id := some "payments-gateway", grant_type := "client_credentials",
        requested_scope := some "transactions:write", audience := none } 0 "t" =
      (.error .AttributeError, sampleAuth) :=
  issue_canonical_scope_attribute_error sampleAuth _ 0 "t" sampleClient (by decide)
    (by decide) (by decide)

/-- C1: rotation is one-shot: a refresh token whose stored session is live rotates
successfully once, and — provided the freshly generated replacement secret does not
hash-collide with the consumed one — any second presentation of the same refresh token
afterwards fails with `InvalidRefreshToken`, because the pop that retrieved the session
also removed it from the store. -/
theorem rotation_one_shot (svc : JWTService) (t ft : String) (s : RefreshSession)
    (now : Int)
    (hget : dictGet svc.refresh_tokens (svc.hash t) = some s)
    (hlive : s.is_expired now = false)
    (hfresh : svc.hash ft ≠ svc.hash t) :
    (∃ b, (svc.rotate_refresh_token t none none now ft).1 = .ok b) ∧
    (∀ (scope2 : Option String) (ei2 : Option Int) (now2 : Int) (ft2 : String),
      ((svc.rotate_refresh_token t none none now ft).2.rotate_refresh_token t
        scope2 ei2 now2 ft2).1 = .error .InvalidRefreshToken) := by
  simp only [JWTService.rotate_refresh_token, JWTService.pop_refresh_token,
    rotationEffectiveScopes, hget, hlive]
  constructor
  · simp
  · intro scope2 ei2 now2 ft2
    have hnone : ∀ v : RefreshSession,
        dictGet (dictInsert (dictRemove svc.refresh_tokens (svc.hash t))
          (svc.hash ft) v) (svc.hash t) = none := by
      intro v
      rw [dictGet_dictInsert_ne _ _ _ _ (Ne.symm hfresh)]
      exact dictGet_dictRemove_self _ _
    simp [hnone]

/-- Witness for C1 at a concrete state: the stored live session for "tok1" rotates
once, and presenting "tok1" again afterwards fails with `InvalidRefreshToken`. -/
theorem rotation_one_shot_witness :
    (∃ b, (sampleSvc.rotate_refresh_token "tok1" none none 0 "tok2").1 = .ok b) ∧
    ((sampleSvc.rotate_refresh_token "tok1" none none 0 "tok2").2.rotate_refresh_token
        "tok1" none none 5 "tok3").1 = .error .InvalidRefreshToken :=
  ⟨(rotation_one_shot sampleSvc "tok1" "tok2" sampleSession 0 (by decide) (by decide)
      (by decide)).1,
   (rotation_one_shot sampleSvc "tok1" "tok2" sampleSession 0 (by decide) (by decide)
      (by decide)).2 none none 5 "tok3"⟩

/-- C4: expired-session rotation is rejected but still consuming: a refresh token whose
session satisfies `expires_at <= now` fails rotation with `RefreshTokenExpired`, yet
the session has been removed from the store (it is not reinserted), so a later
presentation of the same token fails with `InvalidRefreshToken` instead. -/
theorem expired_rotation_consumes (svc : JWTService) (t : String)
    (s : RefreshSession) (now : Int) (scope : Option String) (ei : Option Int)
    (ft : String)
    (hget : dictGet svc.refresh_tokens (svc.hash t) = some s)
    (hexp : s.is_expired now = true) :
    (svc.rotate_refresh_token t scope ei now ft).1 = .error .RefreshTokenExpired ∧
    dictGet (svc.rotate_refresh_token t scope ei now ft).2.refresh_tokens
      (svc.hash t) = none ∧
    (∀ (scope2 : Option String) (ei2 : Option Int) (now2 : Int) (ft2 : String),
      ((svc.rotate_refresh_token t scope ei now ft).2.rotate_refresh_token t
        scope2 ei2 now2 ft2).1 = .error .InvalidRefreshToken) := by
  simp only [JWTService.rotate_refresh_token, JWTService.pop_refresh_token, hget,
    hexp]
  refine ⟨rfl, ?_, ?_⟩
  · exact dictGet_dictRemove_self _ _
  · intro scope2 ei2 now2 ft2
    have hnone : dictGet (dictRemove svc.refresh_tokens (svc.hash t))
        (svc.hash t) = none := dictGet_dictRemove_self _ _
    simp [hnone]

/-- Witness for C4 at a concrete state: at time 2000 the stored session for "tok1"
(expiring at 1000) is expired; rotation fails `RefreshTokenExpired`, the session is
gone from the store, and a retry fails `InvalidRefreshToken`. -/
theorem expired_rotation_consumes_witness :
    (sampleSvc.rotate_refresh_token "tok1" none none 2000 "tok2").1 =
      .error .RefreshTokenExpired ∧
    dictGet (sampleSvc.rotate_refresh_token "tok1" none none 2000 "tok2").2.refresh_tokens
      "tok1" = none ∧
    ((sampleSvc.rotate_refresh_token "tok1" none none 2000 "tok2").2.rotate_refresh_token
        "tok1" none none 2001 "tok3").1 = .error .InvalidRefreshToken :=
  ⟨(expired_rotation_consumes sampleSvc "tok1" sampleSession 2000 none none "tok2"
      (by decide) (by decide)).1,
   (expired_rotation_consumes sampleSvc "tok1" sampleSession 2000 none none "tok2"
      (by decide) (by decide)).2.1,
   (expired_rotation_consumes sampleSvc "tok1" sampleSession 2000 none none "tok2"
      (by decide) (by decide)).2.2 none none 2001 "tok3"⟩

/-- Pieces produced by `pySplit` are never empty (the split drops empty fragments), so
the empty string never appears in a parsed scope set. -/
theorem empty_not_mem_pySplit (s : String) : "" ∉ pySplit s := by
  intro h
  unfold pySplit at h
  rcases List.mem_map.mp h with ⟨w, hw, hmk⟩
  rcases List.mem_filter.mp hw with ⟨_, hne⟩
  exact bne_iff_ne.mp hne (congrArg String.data hmk)

/-- C2 counterexample: rotating "tok1" (session scopes a,b) down to the requested
scope "a" succeeds, but the refresh session stored for the newly returned token "tok2"
still carries the session's original scopes a,b — not the requested set, contradicting
the claim's "scopes equal exactly the requested set". -/
theorem scope_narrowing_counterexample :
    ((sampleSvc.rotate_refresh_token "tok1" (some "a") none 0 "tok2").1.map
        (fun b => b.refresh_token)) = .ok "tok2" ∧
    (pySplit "a").toFinset ⊆ sampleSession.scopes ∧
    ((dictGet (sampleSvc.rotate_refresh_token "tok1" (some "a") none 0
        "tok2").2.refresh_tokens "tok2").map RefreshSession.scopes) =
      some sampleSession.scopes ∧
    sampleSession.scopes ≠ (pySplit "a").toFinset := by
  refine ⟨?_, ?_, ?_, ?_⟩ <;> decide

/-- C2 (amended): scope narrowing on rotation: for every live, unexpired refresh
session, rotating with a requested scope set that is not a subset of the session's
scopes fails `ScopeNotGranted`; with a subset it succeeds, the new access token's
scope claim equals the canonical join of the requested set, and the refresh session
stored for the newly returned refresh token keeps the ORIGINAL session's scopes (the
narrowing applies to the issued access token, not to the stored session — line 213 of
`security.py` passes `session.scopes`). -/
theorem scope_narrowing_amended (svc : JWTService) (t ft str : String)
    (s : RefreshSession) (now : Int) (ei : Option Int)
    (hget : dictGet svc.refresh_tokens (svc.hash t) = some s)
    (hlive : s.is_expired now = false)
    (hstr : str ≠ "") :
    (¬ (pySplit str).toFinset ⊆ s.scopes →
      (svc.rotate_refresh_token t (some str) ei now ft).1 =
        .error .ScopeNotGranted) ∧
    ((pySplit str).toFinset ⊆ s.scopes →
      ((svc.rotate_refresh_token t (some str) ei now ft).1.map
          (fun b => b.access_token.payload.scope)) =
        .ok (joinSorted (pySplit str).toFinset) ∧
      ((dictGet (svc.rotate_refresh_token t (some str) ei now ft).2.refresh_tokens
          (svc.hash ft)).map RefreshSession.scopes) = some s.scopes) := by
  have hbne : (str != "") = true := by simpa using hstr
  simp only [JWTService.rotate_refresh_token, JWTService.pop_refresh_token,
    rotationEffectiveScopes, hget, hlive, hbne, if_true, Bool.false_eq_true,
    if_false]
  constructor
  · intro h
    simp [h]
  · intro h
    refine ⟨?_, ?_⟩
    · simp [h, Except.map]
    · simp [h, dictGet_dictInsert_self]

/-- Witness for the amended C2 at concrete inputs: requesting "a c" (not granted)
fails `ScopeNotGranted`; requesting "a" succeeds with scope claim "a" while the stored
session keeps scopes a,b. -/
theorem scope_narrowing_amended_witness :
    (sampleSvc.rotate_refresh_token "tok1" (some "a c") none 0 "tok2").1 =
      .error .ScopeNotGranted ∧
    ((sampleSvc.rotate_refresh_token "tok1" (some "a") none 0 "tok2").1.map
        (fun b => b.access_token.payload.scope)) =
      .ok (joinSorted (pySplit "a").toFinset) ∧
    ((dictGet (sampleSvc.rotate_refresh_token "tok1" (some "a") none 0
        "tok2").2.refresh_tokens (sampleSvc.hash "tok2")).map
      RefreshSession.scopes) = some sampleSession.scopes :=
  ⟨(scope_narrowing_amended sampleSvc "tok1" "tok2" "a c" sampleSession 0 none
      (by decide) (by decide) (by decide)).1 (by decide),
   ((scope_narrowing_amended sampleSvc "tok1" "tok2" "a" sampleSession 0 none
      (by decide) (by decide) (by decide)).2 (by decide)).1,
   ((scope_narrowing_amended sampleSvc "tok1" "tok2" "a" sampleSession 0 none
      (by decide) (by decide) (by decide)).2 (by decide)).2⟩

/-- Canonical join of a one-element scope set is that element. -/
theorem joinSorted_singleton (w : String) : joinSorted {w} = w := by
  rw [joinSorted, sortedStrings, Finset.sort_singleton]
  rfl

/-- C3 counterexample: a scope string containing a space breaks the round-trip. The
token issued for the scope set containing the single string "a b" decodes to a
principal whose scope set is the two strings "a","b" — not the set passed to issue. -/
theorem round_trip_counterexample :
    ((decode_token (fun _ => "PUB") "PUB" none 0
        (sampleSvc.issue_tokens "alice" "web-portal" ["a b"] [] none 0
          "tok9").1.access_token).map Principal.scopes) = .ok {"a", "b"} ∧
    ({"a", "b"} : Finset String) ≠ (["a b"] : List String).toFinset := by
  constructor
  · simp only [JWTService.issue_tokens, decode_token, sigOk, audOk,
      List.toFinset_cons, List.toFinset_nil, insert_emptyc_eq, joinSorted_singleton]
    rw [if_pos ⟨by simp, by decide, trivial⟩]
    decide
  · decide

/-- C3 (amended): round-trip: for every token bundle produced by `issue_tokens` whose
scope strings are each non-empty and whitespace-free, decoding the returned access
token with the matching verification key (before its expiry, with no audience check
configured) yields a principal whose subject, scopes (as a set), roles (as a set) and
client id equal the values passed to issue. -/
theorem round_trip_amended (svc : JWTService) (subject client_id : String)
    (scopes roles : List String) (audience : Option String) (now now2 : Int)
    (ft : String) (pub_of : String → String)
    (hgood : ∀ w ∈ scopes, goodScope w)
    (htime : now2 < now + svc.settings.access_token_ttl) :
    decode_token pub_of (pub_of svc.settings.private_key) none now2
      (svc.issue_tokens subject client_id scopes roles audience now
        ft).1.access_token =
      .ok ⟨subject, scopes.toFinset, roles.toFinset, some client_id⟩ := by
  have hset : ∀ w ∈ scopes.toFinset, goodScope w := by
    intro w hw
    exact hgood w (List.mem_toFinset.mp hw)
  simp only [JWTService.issue_tokens, decode_token, sigOk, audOk]
  rw [if_pos ⟨by simp, htime, trivial⟩]
  simp [Principal.mk.injEq, toFinset_pySplit_joinSorted _ hset,
    toFinset_sortedStrings]

/-- Witness for the amended C3 at concrete inputs: issuing for scopes b,a and role r,
then decoding with the paired verification key at time 10, recovers exactly subject
alice, scopes b,a, role r and client web-portal. -/
theorem round_trip_amended_witness :
    decode_token (fun _ => "PUB") ((fun _ => "PUB") sampleSvc.settings.private_key)
        none 10
        (sampleSvc.issue_tokens "alice" "web-portal" ["b", "a"] ["r"] none 0
          "tok9").1.access_token =
      .ok ⟨"alice", (["b", "a"] : List String).toFinset,
        (["r"] : List String).toFinset, some "web-portal"⟩ :=
  round_trip_amended sampleSvc "alice" "web-portal" ["b", "a"] ["r"] none 0 10 "tok9"
    (fun _ => "PUB") (by decide) (by decide)

